import Mathlib

/-!
Shallow embedding of the travel-recommendation core of this repository:
the scorer (recommend_places in app.py and web.py), the weather-quality
derivation (inside get_weather_data_cached), the place categorizer
(categorize_place in web.py) and the two itinerary builders
(generate_itinerary in app.py, the variant-A builder, and in web.py, the
variant-B builder).

Modelling conventions: Python floats are modelled as exact rationals,
Python dicts keyed by place name as association lists in insertion order,
the rating value (a float or the string sentinel N-slash-A) as an Option
over the rationals with none for the sentinel, and the stable Python sort
as List.mergeSort with the corresponding boolean key comparison.
-/

namespace TravelPlanner

/-- One value of the traffic_data dict built by
get_traffic_data_for_places_cached: a travel time in minutes and a
traffic level. -/
structure TrafficInfo where
  travel_time : ℚ
  traffic_level : ℚ
deriving DecidableEq

/-- One element of the places list consumed by recommend_places: the
fields of a nearby-places search result. rating is none for the
unrated sentinel. -/
structure Place where
  name : String
  rating : Option ℚ
  lat : ℚ
  lng : ℚ
  types : List String
deriving DecidableEq

/-- The user_preferences dict as read by recommend_places, with the .get
defaults already resolved by the caller. -/
structure UserPreferences where
  weather_importance : ℚ
  crowd_importance : ℚ
  attractions_importance : ℚ
  trip_type : String
deriving DecidableEq

/-- One element of the scored_places list built inside recommend_places.
The source stores a dict with keys Place, Travel Time, Rating, Score,
lat, lng and (web.py only) types. -/
structure ScoredPlace where
  place : String
  travel_time : ℚ
  rating : ℚ
  score : ℚ
  lat : ℚ
  lng : ℚ
  types : List String
deriving DecidableEq

/-- Boolean check that pat is an initial segment of s, character by
character; helper for the substring test. -/
def starts_with : List Char → List Char → Bool
  | [], _ => true
  | _ :: _, [] => false
  | p :: ps, c :: cs => p == c && starts_with ps cs

/-- Boolean substring occurrence test on character lists; helper for the
Python expression pat in s on strings. -/
def str_in : List Char → List Char → Bool
  | pat, [] => pat.isEmpty
  | pat, c :: cs => starts_with pat (c :: cs) || str_in pat cs

/-- The Python membership test pat in s on strings: pat occurs as a
contiguous substring of s. -/
def strContains (s pat : String) : Bool := str_in pat.toList s.toList

/-- The trip_type_weights dict lookup with default 1.0, from
recommend_places in both app.py and web.py. -/
def trip_type_weights (trip_type : String) : ℚ :=
  if trip_type = "Adventure" then 1.2
  else if trip_type = "Relaxation" then 0.8
  else if trip_type = "Cultural" then 1.5
  else 1.0

/-- max_travel_time in recommend_places: the maximum of all travel times
in traffic_data with 1 appended, so at least 1. -/
def max_travel_time (traffic_data : List (String × TrafficInfo)) : ℚ :=
  (traffic_data.map (fun kv => kv.2.travel_time)).foldr max 1

/-- The expression traffic_data.get(name, empty-dict).get(travel_time, 15)
in recommend_places: the stored travel time, or 15 when the name is
absent. -/
def lookup_travel_time (traffic_data : List (String × TrafficInfo)) (name : String) : ℚ :=
  match traffic_data.find? (fun kv => kv.1 == name) with
  | some kv => kv.2.travel_time
  | none => 15

/-- The rating coercion in recommend_places: the float rating, or 3.0 for
the unrated sentinel. -/
def rating_value (rating : Option ℚ) : ℚ :=
  match rating with
  | some r => r
  | none => 3.0

/-- The loop body of recommend_places (identical in app.py and web.py):
builds one scored_places entry from one place, given the precomputed
max_travel_time mtt. -/
def score_place (traffic_data : List (String × TrafficInfo)) (weather_quality : ℚ)
    (prefs : UserPreferences) (mtt : ℚ) (place : Place) : ScoredPlace :=
  let travel_time := lookup_travel_time traffic_data place.name
  let rating := rating_value place.rating
  let norm_travel := travel_time / mtt
  let norm_rating := rating / 5
  let trip_factor := trip_type_weights prefs.trip_type
  let score :=
    (prefs.weather_importance * weather_quality / 10 +
     prefs.crowd_importance * (1 - norm_travel) *
       (if prefs.trip_type = "Adventure" then trip_factor else 1.0) +
     prefs.attractions_importance * norm_rating *
       (if prefs.trip_type = "Cultural" then trip_factor else 1.0)) * 10
  { place := place.name, travel_time := travel_time, rating := rating,
    score := score, lat := place.lat, lng := place.lng, types := place.types }

/-- The scored_places list built by the for-loop of recommend_places,
before sorting. -/
def scored_places (places : List Place) (traffic_data : List (String × TrafficInfo))
    (weather_quality : ℚ) (prefs : UserPreferences) : List ScoredPlace :=
  places.map (score_place traffic_data weather_quality prefs (max_travel_time traffic_data))

/-- recommend_places from web.py: score every place, then sort descending
by score, or, when sort_by_travel_time is set, by travel time ascending
with score descending as tie-break. Python sorted is stable mergesort
with the comparison induced by the key. -/
def web_recommend_places (places : List Place) (traffic_data : List (String × TrafficInfo))
    (weather_quality : ℚ) (prefs : UserPreferences) (sort_by_travel_time : Bool) :
    List ScoredPlace :=
  let sp := scored_places places traffic_data weather_quality prefs
  if sort_by_travel_time then
    sp.mergeSort (fun a b =>
      decide (a.travel_time < b.travel_time ∨ (a.travel_time = b.travel_time ∧ b.score ≤ a.score)))
  else
    sp.mergeSort (fun a b => decide (b.score ≤ a.score))

/-- recommend_places from app.py: score every place, sort descending by
score, and keep the first num_recommendations entries (the source default
for num_recommendations is 5). -/
def app_recommend_places (places : List Place) (traffic_data : List (String × TrafficInfo))
    (weather_quality : ℚ) (prefs : UserPreferences) (num_recommendations : ℕ) :
    List ScoredPlace :=
  ((scored_places places traffic_data weather_quality prefs).mergeSort
    (fun a b => decide (b.score ≤ a.score))).take num_recommendations

/-- The weather-quality derivation inside get_weather_data_cached
(identical in app.py and web.py): a base from the condition text, a
temperature adjustment, then a clamp to the range 1 to 10. -/
def derive_weather_quality (condition : String) (temp : ℚ) : ℤ :=
  let quality : ℤ :=
    if strContains condition "clear" || strContains condition "sunny" then 9
    else if strContains condition "cloud" then 7
    else if strContains condition "rain" then 4
    else 6
  let quality := quality +
    (if 20 ≤ temp ∧ temp ≤ 30 then 1 else if temp < 5 ∨ temp > 40 then -2 else 0)
  max 1 (min 10 quality)

/-- The place_type_categories dict of web.py as a lookup: some category
for the eleven listed types, none for any other tag. -/
def place_type_categories (t : String) : Option String :=
  if t = "park" then some "outdoor"
  else if t = "museum" then some "indoor"
  else if t = "art_gallery" then some "indoor"
  else if t = "restaurant" then some "dining"
  else if t = "cafe" then some "dining"
  else if t = "bar" then some "dining"
  else if t = "amusement_park" then some "outdoor"
  else if t = "zoo" then some "outdoor"
  else if t = "shopping_mall" then some "indoor"
  else if t = "point_of_interest" then some "mixed"
  else if t = "establishment" then some "mixed"
  else none

/-- categorize_place from web.py: return the category of the first tag
found in place_type_categories, and the default mixed when no tag is in
the table. -/
def categorize_place : List String → String
  | [] => "mixed"
  | t :: ts =>
    match place_type_categories t with
    | some c => c
    | none => categorize_place ts

/-- The outdoor_friendly flag shared by both itinerary builders: the
weather condition text contains clear, sunny or few clouds. -/
def outdoor_friendly_flag (weather_condition : String) : Bool :=
  strContains weather_condition "clear" || strContains weather_condition "sunny" ||
    strContains weather_condition "few clouds"

/-- The expression x[1].travel_time if x[1] is a dict else 15 used by the
app.py builder on the values of places_data; none models a non-dict
value. -/
def data_travel_time (data : Option TrafficInfo) : ℚ :=
  match data with
  | some d => d.travel_time
  | none => 15

/-- One itinerary row appended by generate_itinerary in app.py. The
source stores the travel time formatted as a string of minutes and the
traffic column as a colored emoji; here the time is kept as a number and
the emoji as a color word. rating is none for a name absent from
place_ratings (the sentinel in the source). -/
structure AppItineraryEntry where
  day : String
  place : String
  travel_time : ℚ
  traffic : String
  best_time : String
  place_type : String
  rating : Option ℚ
deriving DecidableEq

/-- The loop body of generate_itinerary in app.py: one row from one
sorted places_data item for a given 0-based day index. -/
def app_itinerary_entry (outdoor_friendly : Bool) (place_ratings : List (String × ℚ))
    (day : ℕ) (pd : String × Option TrafficInfo) : AppItineraryEntry :=
  let travel_time := data_travel_time pd.2
  { day := "Day " ++ toString (day + 1)
  , place := pd.1
  , travel_time := travel_time
  , traffic := if travel_time < 20 then "green" else if travel_time < 30 then "yellow" else "red"
  , best_time :=
      if travel_time < 25 ∧ outdoor_friendly = true then "Morning"
      else if travel_time < 40 then "Afternoon"
      else "Evening"
  , place_type :=
      if outdoor_friendly = true ∧ travel_time < 25 then "outdoor"
      else if travel_time < 40 then "mixed"
      else "indoor or dining"
  , rating := (place_ratings.find? (fun kv => kv.1 == pd.1)).map (fun kv => kv.2) }

/-- The sorted_places list of generate_itinerary in app.py: places_data
items sorted by travel time ascending with the stable Python sort. -/
def app_sorted_places (places_data : List (String × Option TrafficInfo)) :
    List (String × Option TrafficInfo) :=
  places_data.mergeSort (fun a b => decide (data_travel_time a.2 ≤ data_travel_time b.2))

/-- generate_itinerary from app.py, the variant-A builder: sort the
places_data items by travel time, set places_per_day to the integer
division of the place count by num_days (at least 1), and give day number
day (0-based) the slice from day times places_per_day of length
places_per_day. The unused destination and travel_date parameters of the
source are dropped and the weather condition is passed directly. -/
def app_generate_itinerary (places_data : List (String × Option TrafficInfo))
    (weather_condition : String) (place_ratings : List (String × ℚ)) (num_days : ℕ) :
    List AppItineraryEntry :=
  let sorted_places := app_sorted_places places_data
  let outdoor_friendly := outdoor_friendly_flag weather_condition
  let places_per_day := max 1 (sorted_places.length / num_days)
  ((List.range num_days).map (fun day =>
    ((sorted_places.drop (day * places_per_day)).take places_per_day).map
      (app_itinerary_entry outdoor_friendly place_ratings day))).flatten

/-- One itinerary row appended by generate_itinerary in web.py. The
source stores the category capitalized, the travel time formatted as a
string of minutes, and the traffic column as a colored emoji; here the
time is kept as a number and the emoji as a color word. -/
structure WebItineraryEntry where
  day : String
  place : String
  category : String
  travel_time : ℚ
  traffic : String
  best_time : String
  rating : ℚ
  lat : ℚ
  lng : ℚ
deriving DecidableEq

/-- The inner loop body of generate_itinerary in web.py: one row from one
recommended place, for a given 0-based day index and the day start index
start_idx equal to day times 4. -/
def web_itinerary_entry (outdoor_friendly : Bool) (day start_idx : ℕ)
    (p : ScoredPlace) : WebItineraryEntry :=
  let category := categorize_place p.types
  let travel_time := p.travel_time
  { day := "Day " ++ toString (day + 1)
  , place := p.place
  , category := category.capitalize
  , travel_time := travel_time
  , traffic := if travel_time < 20 then "green" else if travel_time < 30 then "yellow" else "red"
  , best_time :=
      if category = "outdoor" ∧ outdoor_friendly = true then
        (if start_idx % 3 = 0 then "Morning"
         else if start_idx % 3 = 1 then "Afternoon" else "Evening")
      else if category = "indoor" then "Anytime"
      else if category = "dining" then (if start_idx % 2 = 0 then "Lunch" else "Dinner")
      else "Afternoon"
  , rating := p.rating
  , lat := p.lat
  , lng := p.lng }

/-- The sorted_recs list of generate_itinerary in web.py: the scored
recommendations sorted by travel time ascending with the stable Python
sort. -/
def web_sorted_recs (recommendations : List ScoredPlace) : List ScoredPlace :=
  recommendations.mergeSort (fun a b => decide (a.travel_time ≤ b.travel_time))

/-- The day loop of generate_itinerary in web.py, by recursion on the
number of remaining loop iterations: day number day (0-based) takes the
slice of four sorted places starting at day times 4, and the loop breaks
at the first empty slice. -/
def web_itinerary_days (sorted_recs : List ScoredPlace) (outdoor_friendly : Bool) :
    ℕ → ℕ → List WebItineraryEntry
  | _, 0 => []
  | day, fuel + 1 =>
    let start_idx := day * 4
    let day_places := (sorted_recs.drop start_idx).take 4
    if day_places.isEmpty then []
    else
      day_places.map (web_itinerary_entry outdoor_friendly day start_idx) ++
        web_itinerary_days sorted_recs outdoor_friendly (day + 1) fuel

/-- generate_itinerary from web.py, the variant-B builder: sort the
recommendations by travel time and run the day loop for num_days
iterations starting at day 0. The weather condition is passed directly
and the unused user_preferences parameter of the source is dropped. -/
def web_generate_itinerary (recommendations : List ScoredPlace)
    (weather_condition : String) (num_days : ℕ) : List WebItineraryEntry :=
  web_itinerary_days (web_sorted_recs recommendations)
    (outdoor_friendly_flag weather_condition) 0 num_days

/-! ### Helper lemmas -/

/-- The length of the concatenation of the consecutive slices of width p
starting at 0, p, 2p, ... over n slices: the whole list is covered up to
index n times p. -/
lemma flatten_slices_length {α β : Type} (l : List α) (g : ℕ → α → β) (p : ℕ) :
    ∀ n, (((List.range n).map (fun i => ((l.drop (i * p)).take p).map (g i))).flatten).length
      = min (n * p) l.length := by
  intro n
  induction n with
  | zero => simp
  | succ n ih =>
    rw [List.range_succ]
    simp only [List.map_append, List.flatten_append, List.length_append, ih, List.map_cons,
      List.map_nil, List.flatten_cons, List.flatten_nil, List.append_nil, List.length_map,
      List.length_take, List.length_drop]
    have hnp : (n + 1) * p = n * p + p := by ring
    omega

/-- Every element of the concatenation of mapped slices of a list l comes
from an element of l. -/
lemma mem_flatten_slices {α β : Type} {e : β} {l : List α} {g : ℕ → α → β} {p n : ℕ}
    (he : e ∈ ((List.range n).map (fun i => ((l.drop (i * p)).take p).map (g i))).flatten) :
    ∃ i a, a ∈ l ∧ e = g i a := by
  simp only [List.mem_flatten, List.mem_map] at he
  obtain ⟨li, ⟨i, _, rfl⟩, hm⟩ := he
  obtain ⟨a, ha, rfl⟩ := List.mem_map.mp hm
  exact ⟨i, a, List.mem_of_mem_drop (List.mem_of_mem_take ha), rfl⟩

/-! ### Theorems about the claims -/

/-- Claim C8: for every input to recommend_places, including an empty
traffic map, the computed max_travel_time is at least 1, hence nonzero,
so the division normalizing travel times never divides by zero. -/
theorem c8_max_travel_time_at_least_one :
    ∀ traffic_data : List (String × TrafficInfo),
      1 ≤ max_travel_time traffic_data ∧ max_travel_time traffic_data ≠ 0 := by
  intro traffic_data
  have h : 1 ≤ max_travel_time traffic_data := by
    unfold max_travel_time
    induction traffic_data.map (fun kv => kv.2.travel_time) with
    | nil => simp
    | cons x xs ih => exact le_trans ih (le_max_right x _)
  exact ⟨h, by linarith⟩

/-- Claim C9: the app.py variant of recommend_places keeps only the first
num_recommendations scored entries: with the source default of 5 the
output length is the minimum of the input place count and 5, and for any
num_recommendations the output never exceeds it. -/
theorem c9_app_truncates_to_num_recommendations :
    ∀ (places : List Place) (traffic_data : List (String × TrafficInfo))
      (weather_quality : ℚ) (prefs : UserPreferences),
      (app_recommend_places places traffic_data weather_quality prefs 5).length
          = min places.length 5 ∧
        ∀ n, (app_recommend_places places traffic_data weather_quality prefs n).length ≤ n := by
  intro places traffic_data weather_quality prefs
  constructor
  · simp [app_recommend_places, scored_places, Nat.min_comm]
  · intro n
    simp [app_recommend_places]

/-- Claim C1: for every list of places, traffic map, weather quality and
preference weights, the score recommend_places assigns to each place is
10 times the sum of the weather term, the crowd term with multiplier 1.2
exactly when the trip type is Adventure, and the attractions term with
multiplier 1.5 exactly when the trip type is Cultural; the travel time
defaults to 15 when the place is absent from the traffic map, the rating
defaults to 3.0 for the unrated sentinel, and the divisor is the maximum
of the traffic travel times and 1. For a Relaxation or unknown trip type
both multipliers are 1. -/
theorem c1_score_formula :
    ∀ (places : List Place) (traffic_data : List (String × TrafficInfo))
      (weather_quality : ℚ) (prefs : UserPreferences),
      (scored_places places traffic_data weather_quality prefs).map (fun e => (e.place, e.score)) =
        places.map (fun p => (p.name,
          10 * (prefs.weather_importance * (weather_quality / 10) +
            prefs.crowd_importance *
              (1 - ((traffic_data.find? (fun kv => kv.1 == p.name)).map
                  (fun kv => kv.2.travel_time)).getD 15 /
                (traffic_data.map (fun kv => kv.2.travel_time)).foldr max 1) *
              (if prefs.trip_type = "Adventure" then 1.2 else 1) +
            prefs.attractions_importance * (p.rating.getD 3.0 / 5) *
              (if prefs.trip_type = "Cultural" then 1.5 else 1)))) := by
  intro places traffic_data weather_quality prefs
  unfold scored_places
  rw [List.map_map]
  apply List.map_congr_left
  intro p _
  have hl : lookup_travel_time traffic_data p.name =
      ((traffic_data.find? (fun kv => kv.1 == p.name)).map
        (fun kv => kv.2.travel_time)).getD 15 := by
    unfold lookup_travel_time
    cases traffic_data.find? (fun kv => kv.1 == p.name) <;> rfl
  have hr : rating_value p.rating = p.rating.getD 3.0 := by
    cases p.rating <;> rfl
  have hAC : ("Adventure" : String) ≠ "Cultural" := by decide
  have hCA : ("Cultural" : String) ≠ "Adventure" := by decide
  have hCR : ("Cultural" : String) ≠ "Relaxation" := by decide
  simp only [Function.comp_apply, score_place, hl, hr, max_travel_time, Prod.mk.injEq, true_and]
  by_cases hA : prefs.trip_type = "Adventure"
  · simp only [hA, trip_type_weights, if_pos rfl, if_neg hAC]
    norm_num
    ring
  · by_cases hC : prefs.trip_type = "Cultural"
    · simp only [hC, trip_type_weights, if_neg hCA, if_neg hCR, if_pos rfl]
      norm_num
      ring
    · simp only [if_neg hA, if_neg hC]
      ring

/-- Claim C5: the derived weather quality is the clamp to the range 1 to
10 of a condition-based base (9 for clear or sunny, 7 for cloud, 4 for
rain, 6 otherwise) plus a temperature adjustment (+1 between 20 and 30
degrees, -2 below 5 or above 40 degrees, 0 otherwise); in particular a
condition containing clear at 25 degrees gives 10, and the condition
rain at 2 degrees gives 2. -/
theorem c5_weather_quality :
    (∀ (condition : String) (temp : ℚ),
        derive_weather_quality condition temp =
          max 1 (min 10
            ((if strContains condition "clear" || strContains condition "sunny" then 9
              else if strContains condition "cloud" then 7
              else if strContains condition "rain" then 4
              else 6) +
            (if 20 ≤ temp ∧ temp ≤ 30 then 1
             else if temp < 5 ∨ temp > 40 then -2
             else (0 : ℤ))))) ∧
      derive_weather_quality "clear sky" 25 = 10 ∧
      derive_weather_quality "rain" 2 = 2 := by
  refine ⟨fun condition temp => rfl, ?_, ?_⟩
  · have h1 : strContains "clear sky" "clear" = true := by decide
    have h2 : (20 ≤ (25 : ℚ) ∧ (25 : ℚ) ≤ 30) := by norm_num
    simp [derive_weather_quality, h1, h2]
  · have h1 : strContains "rain" "clear" = false := by decide
    have h2 : strContains "rain" "sunny" = false := by decide
    have h3 : strContains "rain" "cloud" = false := by decide
    have h4 : strContains "rain" "rain" = true := by decide
    have h5 : ¬(20 ≤ (2 : ℚ) ∧ (2 : ℚ) ≤ 30) := by norm_num
    have h6 : (2 : ℚ) < 5 ∨ (2 : ℚ) > 40 := by norm_num
    simp [derive_weather_quality, h1, h2, h3, h4, h5, h6]

/-- Claim C6 counterexample: the tag zoo is mapped by categorize_place to
outdoor, while the claim says every tag other than the seven it lists
maps to mixed. -/
theorem c6_counterexample_zoo :
    categorize_place ["zoo"] = "outdoor" ∧ ("outdoor" : String) ≠ "mixed" := by
  exact ⟨rfl, by decide⟩

/-- Claim C6 as amended: the category is the value of the first tag found
in the eleven-entry table (park, amusement_park and zoo map to outdoor;
museum, art_gallery and shopping_mall to indoor; restaurant, cafe and bar
to dining; point_of_interest and establishment to mixed), tags outside
the table are skipped, and the default when no tag matches is mixed. -/
theorem c6_first_matching_tag_amended :
    (∀ types : List String,
        categorize_place types = (types.findSome? place_type_categories).getD "mixed") ∧
      (place_type_categories "park" = some "outdoor" ∧
        place_type_categories "amusement_park" = some "outdoor" ∧
        place_type_categories "zoo" = some "outdoor" ∧
        place_type_categories "museum" = some "indoor" ∧
        place_type_categories "art_gallery" = some "indoor" ∧
        place_type_categories "shopping_mall" = some "indoor" ∧
        place_type_categories "restaurant" = some "dining" ∧
        place_type_categories "cafe" = some "dining" ∧
        place_type_categories "bar" = some "dining" ∧
        place_type_categories "point_of_interest" = some "mixed" ∧
        place_type_categories "establishment" = some "mixed") ∧
      ∀ t : String,
        t ∉ ["park", "museum", "art_gallery", "restaurant", "cafe", "bar", "amusement_park",
          "zoo", "shopping_mall", "point_of_interest", "establishment"] →
        place_type_categories t = none := by
  refine ⟨?_, by decide, ?_⟩
  · intro types
    induction types with
    | nil => rfl
    | cons t ts ih =>
      rw [categorize_place, List.findSome?_cons]
      cases place_type_categories t
      · exact ih
      · rfl
  · intro t ht
    simp only [List.mem_cons, List.not_mem_nil, or_false] at ht
    push_neg at ht
    obtain ⟨h1, h2, h3, h4, h5, h6, h7, h8, h9, h10, h11⟩ := ht
    simp [place_type_categories, h1, h2, h3, h4, h5, h6, h7, h8, h9, h10, h11]

/-- Witness for the amended claim C6: the tag temple is outside the table
and maps to none. -/
theorem c6_first_matching_tag_amended_witness :
    ("temple" : String) ∉ ["park", "museum", "art_gallery", "restaurant", "cafe", "bar",
        "amusement_park", "zoo", "shopping_mall", "point_of_interest", "establishment"] ∧
      place_type_categories "temple" = none :=
  ⟨by decide, c6_first_matching_tag_amended.2.2 "temple" (by decide)⟩

/-- Claim C7: scoring never fails; a place whose rating is the unrated
sentinel and whose name is absent from the traffic map is scored with
rating 3.0 and travel time 15 (score_place, the loop body of both
recommend_places variants, is a total function and records exactly the
rating and travel time the score formula uses), and both variants of
recommend_places return the empty list on an empty place list. -/
theorem c7_silent_defaults :
    (∀ (traffic_data : List (String × TrafficInfo)) (weather_quality : ℚ)
        (prefs : UserPreferences) (p : Place),
        p.rating = none →
        traffic_data.find? (fun kv => kv.1 == p.name) = none →
        (score_place traffic_data weather_quality prefs (max_travel_time traffic_data) p).rating
            = 3.0 ∧
          (score_place traffic_data weather_quality prefs
            (max_travel_time traffic_data) p).travel_time = 15) ∧
      (∀ (traffic_data : List (String × TrafficInfo)) (weather_quality : ℚ)
        (prefs : UserPreferences) (sort_by_travel_time : Bool),
        web_recommend_places [] traffic_data weather_quality prefs sort_by_travel_time = []) ∧
      ∀ (traffic_data : List (String × TrafficInfo)) (weather_quality : ℚ)
        (prefs : UserPreferences) (num_recommendations : ℕ),
        app_recommend_places [] traffic_data weather_quality prefs num_recommendations = [] := by
  refine ⟨?_, ?_, ?_⟩
  · intro traffic_data weather_quality prefs p hr hf
    constructor
    · simp [score_place, rating_value, hr]
    · simp [score_place, lookup_travel_time, hf]
  · intro traffic_data weather_quality prefs sort_by_travel_time
    cases sort_by_travel_time <;> simp [web_recommend_places, scored_places]
  · intro traffic_data weather_quality prefs num_recommendations
    simp [app_recommend_places, scored_places]

/-- Witness for claim C7: a concrete unrated place with an empty traffic
map is scored with rating 3.0 and travel time 15. -/
theorem c7_silent_defaults_witness :
    (Place.mk "A" none 0 0 []).rating = none ∧
      ([] : List (String × TrafficInfo)).find?
          (fun kv => kv.1 == (Place.mk "A" none 0 0 []).name) = none ∧
      ((score_place [] 5 (UserPreferences.mk 0.3 0.3 0.2 "Adventure") (max_travel_time [])
            (Place.mk "A" none 0 0 [])).rating = 3.0 ∧
        (score_place [] 5 (UserPreferences.mk 0.3 0.3 0.2 "Adventure") (max_travel_time [])
          (Place.mk "A" none 0 0 [])).travel_time = 15) :=
  ⟨rfl, rfl, c7_silent_defaults.1 [] 5 (UserPreferences.mk 0.3 0.3 0.2 "Adventure")
    (Place.mk "A" none 0 0 []) rfl rfl⟩

/-- Claim C10: with a non-empty place list and an empty traffic map the
normalized travel time exceeds 1 (15 divided by the fallback maximum 1),
and with the default preference weights and a positive crowd importance
the returned score is strictly negative: a single unrated place at
weather quality 5 scores exactly -47.7. -/
theorem c10_negative_score_possible :
    lookup_travel_time [] "A" / max_travel_time [] > 1 ∧
      (web_recommend_places [Place.mk "A" none 0 0 []] [] 5
          (UserPreferences.mk 0.3 0.3 0.2 "Adventure") false).map (fun e => e.score)
        = [-47.7] ∧
      (-47.7 : ℚ) < 0 := by
  refine ⟨by norm_num [lookup_travel_time, max_travel_time], ?_, by norm_num⟩
  simp only [web_recommend_places, scored_places, List.map_cons, List.map_nil,
    List.mergeSort_singleton, Bool.false_eq_true, if_false]
  simp only [score_place, lookup_travel_time, max_travel_time, rating_value,
    trip_type_weights, List.find?_nil, List.map_nil, List.foldr_nil, List.map_cons,
    List.map_nil, if_neg (by decide : ¬("Adventure" : String) = "Cultural")]
  norm_num

/-- The score-descending comparison induced by the Python sort key minus
score in recommend_places. -/
def score_desc_le (a b : ScoredPlace) : Bool := decide (b.score ≤ a.score)

/-- The travel-time-ascending, score-descending lexicographic comparison
induced by the Python sort key (travel time, minus score) in
recommend_places of web.py. -/
def travel_then_score_le (a b : ScoredPlace) : Bool :=
  decide (a.travel_time < b.travel_time ∨
    (a.travel_time = b.travel_time ∧ b.score ≤ a.score))

lemma score_desc_le_trans (a b c : ScoredPlace) :
    score_desc_le a b = true → score_desc_le b c = true → score_desc_le a c = true := by
  simp only [score_desc_le, decide_eq_true_eq]
  exact fun hab hbc => le_trans hbc hab

lemma score_desc_le_total (a b : ScoredPlace) :
    (score_desc_le a b || score_desc_le b a) = true := by
  simp only [score_desc_le, Bool.or_eq_true, decide_eq_true_eq]
  exact le_total b.score a.score

lemma travel_then_score_le_trans (a b c : ScoredPlace) :
    travel_then_score_le a b = true → travel_then_score_le b c = true →
      travel_then_score_le a c = true := by
  simp only [travel_then_score_le, decide_eq_true_eq]
  rintro (h1 | ⟨h1, h1s⟩) (h2 | ⟨h2, h2s⟩)
  · exact Or.inl (lt_trans h1 h2)
  · exact Or.inl (h2 ▸ h1)
  · exact Or.inl (by rw [h1]; exact h2)
  · exact Or.inr ⟨h1.trans h2, le_trans h2s h1s⟩

lemma travel_then_score_le_total (a b : ScoredPlace) :
    (travel_then_score_le a b || travel_then_score_le b a) = true := by
  simp only [travel_then_score_le, Bool.or_eq_true, decide_eq_true_eq]
  rcases lt_trichotomy a.travel_time b.travel_time with h | h | h
  · exact Or.inl (Or.inl h)
  · rcases le_total b.score a.score with hs | hs
    · exact Or.inl (Or.inr ⟨h, hs⟩)
    · exact Or.inr (Or.inr ⟨h.symm, hs⟩)
  · exact Or.inr (Or.inl h)

/-- Claim C2: on a non-empty place list whose computed scores are
pairwise distinct, recommend_places of web.py returns the scored places
(a permutation of them) in strictly descending score order, and with the
sort_by_travel_time flag it returns them ordered by travel time
ascending with score descending as tie-break. -/
theorem c2_sorted_output
    (places : List Place) (traffic_data : List (String × TrafficInfo))
    (weather_quality : ℚ) (prefs : UserPreferences)
    (hne : places ≠ [])
    (hdist : (scored_places places traffic_data weather_quality prefs).Pairwise
      (fun a b => a.score ≠ b.score)) :
    ((web_recommend_places places traffic_data weather_quality prefs false).Perm
        (scored_places places traffic_data weather_quality prefs) ∧
      (web_recommend_places places traffic_data weather_quality prefs false).Pairwise
        (fun a b => b.score < a.score)) ∧
      (web_recommend_places places traffic_data weather_quality prefs true).Perm
          (scored_places places traffic_data weather_quality prefs) ∧
        (web_recommend_places places traffic_data weather_quality prefs true).Pairwise
          (fun a b => a.travel_time < b.travel_time ∨
            (a.travel_time = b.travel_time ∧ b.score < a.score)) := by
  have hfalse : web_recommend_places places traffic_data weather_quality prefs false =
      (scored_places places traffic_data weather_quality prefs).mergeSort score_desc_le := rfl
  have htrue : web_recommend_places places traffic_data weather_quality prefs true =
      (scored_places places traffic_data weather_quality prefs).mergeSort
        travel_then_score_le := rfl
  refine ⟨⟨?_, ?_⟩, ?_, ?_⟩
  · rw [hfalse]
    exact List.mergeSort_perm _ _
  · rw [hfalse]
    have hsorted := List.sorted_mergeSort score_desc_le_trans score_desc_le_total
      (scored_places places traffic_data weather_quality prefs)
    have hd : ((scored_places places traffic_data weather_quality prefs).mergeSort
        score_desc_le).Pairwise (fun a b => a.score ≠ b.score) :=
      ((List.mergeSort_perm _ score_desc_le).pairwise_iff (fun h => Ne.symm h)).mpr hdist
    refine (hsorted.and hd).imp ?_
    rintro a b ⟨hle, hne2⟩
    simp only [score_desc_le, decide_eq_true_eq] at hle
    exact lt_of_le_of_ne hle (Ne.symm hne2)
  · rw [htrue]
    exact List.mergeSort_perm _ _
  · rw [htrue]
    have hsorted := List.sorted_mergeSort travel_then_score_le_trans travel_then_score_le_total
      (scored_places places traffic_data weather_quality prefs)
    have hd : ((scored_places places traffic_data weather_quality prefs).mergeSort
        travel_then_score_le).Pairwise (fun a b => a.score ≠ b.score) :=
      ((List.mergeSort_perm _ travel_then_score_le).pairwise_iff (fun h => Ne.symm h)).mpr hdist
    refine (hsorted.and hd).imp ?_
    rintro a b ⟨hle, hne2⟩
    simp only [travel_then_score_le, decide_eq_true_eq] at hle
    rcases hle with h | ⟨h, hs⟩
    · exact Or.inl h
    · exact Or.inr ⟨h, lt_of_le_of_ne hs (Ne.symm hne2)⟩

/-- Witness for claim C2: a concrete one-place input is non-empty and has
pairwise distinct scores, and the theorem applies to it. -/
theorem c2_sorted_output_witness :
    ([Place.mk "A" none 0 0 []] ≠ []) ∧
      ((scored_places [Place.mk "A" none 0 0 []] [] 5
          (UserPreferences.mk 0.3 0.3 0.2 "Adventure")).Pairwise
        (fun a b => a.score ≠ b.score)) ∧
      (((web_recommend_places [Place.mk "A" none 0 0 []] [] 5
            (UserPreferences.mk 0.3 0.3 0.2 "Adventure") false).Perm
          (scored_places [Place.mk "A" none 0 0 []] [] 5
            (UserPreferences.mk 0.3 0.3 0.2 "Adventure")) ∧
        (web_recommend_places [Place.mk "A" none 0 0 []] [] 5
            (UserPreferences.mk 0.3 0.3 0.2 "Adventure") false).Pairwise
          (fun a b => b.score < a.score)) ∧
        (web_recommend_places [Place.mk "A" none 0 0 []] [] 5
            (UserPreferences.mk 0.3 0.3 0.2 "Adventure") true).Perm
            (scored_places [Place.mk "A" none 0 0 []] [] 5
              (UserPreferences.mk 0.3 0.3 0.2 "Adventure")) ∧
          (web_recommend_places [Place.mk "A" none 0 0 []] [] 5
              (UserPreferences.mk 0.3 0.3 0.2 "Adventure") true).Pairwise
            (fun a b => a.travel_time < b.travel_time ∨
              (a.travel_time = b.travel_time ∧ b.score < a.score))) :=
  ⟨by simp, by simp [scored_places],
    c2_sorted_output [Place.mk "A" none 0 0 []] [] 5
      (UserPreferences.mk 0.3 0.3 0.2 "Adventure") (by simp) (by simp [scored_places])⟩

/-- Claim C3 counterexample: five places with three days give
places_per_day equal to one, so the app.py builder emits only three
entries and silently drops two input places, against the claim that the
entry count always equals the input place count. -/
theorem c3_counterexample_dropped_places :
    (app_generate_itinerary
          [("A", none), ("B", none), ("C", none), ("D", none), ("E", none)]
          "clear sky" [] 3).length = 3 ∧
      ([("A", (none : Option TrafficInfo)), ("B", none), ("C", none), ("D", none),
          ("E", none)] : List (String × Option TrafficInfo)).length = 5 ∧
      (3 : ℕ) ≠ 5 := by
  have hs : app_sorted_places
      [("A", none), ("B", none), ("C", none), ("D", none), ("E", none)] =
      [("A", none), ("B", none), ("C", none), ("D", none), ("E", none)] :=
    List.mergeSort_of_sorted (by decide)
  refine ⟨?_, rfl, by decide⟩
  simp only [app_generate_itinerary]
  rw [hs]
  rfl

/-- Claim C3 as amended: for num_days at least 1 the variant-A builder
emits exactly the minimum of the input place count and num_days times
places_per_day entries, where places_per_day is the integer division of
the place count by num_days, at least 1 (so places beyond that prefix are
dropped whenever num_days does not divide the place count), and no entry
references a place outside the input. -/
theorem c3_itinerary_count_amended
    (places_data : List (String × Option TrafficInfo)) (weather_condition : String)
    (place_ratings : List (String × ℚ)) (num_days : ℕ) (h : 1 ≤ num_days) :
    (app_generate_itinerary places_data weather_condition place_ratings num_days).length =
        min places_data.length (num_days * max 1 (places_data.length / num_days)) ∧
      ∀ e ∈ app_generate_itinerary places_data weather_condition place_ratings num_days,
        ∃ kv ∈ places_data, e.place = kv.1 := by
  have hlen : (app_sorted_places places_data).length = places_data.length := by
    simp [app_sorted_places]
  constructor
  · calc (app_generate_itinerary places_data weather_condition place_ratings num_days).length
        = min (num_days * max 1 ((app_sorted_places places_data).length / num_days))
            (app_sorted_places places_data).length :=
          flatten_slices_length (app_sorted_places places_data)
            (fun day => app_itinerary_entry (outdoor_friendly_flag weather_condition)
              place_ratings day)
            (max 1 ((app_sorted_places places_data).length / num_days)) num_days
      _ = min places_data.length (num_days * max 1 (places_data.length / num_days)) := by
          rw [hlen, Nat.min_comm]
  · intro e he
    obtain ⟨i, a, ha, rfl⟩ :=
      @mem_flatten_slices (String × Option TrafficInfo) AppItineraryEntry e
        (app_sorted_places places_data)
        (fun day => app_itinerary_entry (outdoor_friendly_flag weather_condition)
          place_ratings day)
        (max 1 ((app_sorted_places places_data).length / num_days)) num_days he
    refine ⟨a, ?_, rfl⟩
    have ha2 : a ∈ app_sorted_places places_data := ha
    simpa [app_sorted_places] using ha2

/-- Witness for the amended claim C3: one place and one day; the builder
emits exactly one entry and it references the input place. -/
theorem c3_itinerary_count_amended_witness :
    1 ≤ 1 ∧
      ((app_generate_itinerary [("A", (none : Option TrafficInfo))] "x" [] 1).length =
          min ([("A", (none : Option TrafficInfo))] :
              List (String × Option TrafficInfo)).length
            (1 * max 1 (([("A", (none : Option TrafficInfo))] :
              List (String × Option TrafficInfo)).length / 1)) ∧
        ∀ e ∈ app_generate_itinerary [("A", (none : Option TrafficInfo))] "x" [] 1,
          ∃ kv ∈ [("A", (none : Option TrafficInfo))], e.place = kv.1) :=
  ⟨le_refl 1, c3_itinerary_count_amended [("A", none)] "x" [] 1 (le_refl 1)⟩

/-- The day loop of the web.py builder assigns day number day plus i the
slice of four sorted places starting at index (day plus i) times 4; the
break at the first empty slice loses nothing because all later slices of
the sorted list are then empty as well. -/
lemma web_itinerary_days_day_place (l : List ScoredPlace) (of : Bool) :
    ∀ (fuel day : ℕ),
      (web_itinerary_days l of day fuel).map (fun e => (e.day, e.place)) =
        ((List.range fuel).map (fun i =>
          ((l.drop ((day + i) * 4)).take 4).map
            (fun p => ("Day " ++ toString (day + i + 1), p.place)))).flatten := by
  intro fuel
  induction fuel with
  | zero => intro day; simp [web_itinerary_days]
  | succ n ih =>
    intro day
    cases hempty : ((l.drop (day * 4)).take 4).isEmpty with
    | true =>
      have hnil : l.drop (day * 4) = [] := by
        rcases List.take_eq_nil_iff.mp (List.isEmpty_iff.mp hempty) with h4 | hl
        · omega
        · exact hl
      have hlen : l.length ≤ day * 4 := List.drop_eq_nil_iff.mp hnil
      simp only [web_itinerary_days, hempty, if_true, List.map_nil]
      symm
      rw [List.flatten_eq_nil_iff]
      intro li hli
      simp only [List.mem_map, List.mem_range] at hli
      obtain ⟨i, _, rfl⟩ := hli
      have hnil2 : l.drop ((day + i) * 4) = [] :=
        List.drop_eq_nil_iff.mpr (le_trans hlen (by omega))
      rw [hnil2]
      simp
    | false =>
      simp only [web_itinerary_days, hempty, Bool.false_eq_true, if_false, List.map_append,
        List.map_map]
      rw [ih (day + 1)]
      rw [List.range_succ_eq_map]
      simp only [List.map_cons, List.flatten_cons, List.map_map]
      congr 1
      congr 1
      apply List.map_congr_left
      intro i _
      simp only [Function.comp_apply]
      have h1 : day + 1 + i = day + Nat.succ i := by omega
      rw [h1]

/-- Claim C4: the variant-B builder first sorts by travel time ascending
(the sorted list is pairwise ordered); day number i (0-based) receives
exactly the slice of the sorted list from index i times 4 of length 4, in
order, the loop stopping at the first empty slice; and the total entry
count is the minimum of the place count and num_days times 4. -/
theorem c4_day_buckets
    (recommendations : List ScoredPlace) (weather_condition : String) (num_days : ℕ)
    (h : 1 ≤ num_days) :
    (web_sorted_recs recommendations).Pairwise
        (fun a b => a.travel_time ≤ b.travel_time) ∧
      (web_generate_itinerary recommendations weather_condition num_days).map
          (fun e => (e.day, e.place)) =
        ((List.range num_days).map (fun i =>
          (((web_sorted_recs recommendations).drop (i * 4)).take 4).map
            (fun p => ("Day " ++ toString (i + 1), p.place)))).flatten ∧
      (web_generate_itinerary recommendations weather_condition num_days).length =
        min recommendations.length (num_days * 4) := by
  have htrans : ∀ a b c : ScoredPlace,
      decide (a.travel_time ≤ b.travel_time) = true →
      decide (b.travel_time ≤ c.travel_time) = true →
      decide (a.travel_time ≤ c.travel_time) = true := by
    intro a b c hab hbc
    simp only [decide_eq_true_eq] at *
    exact le_trans hab hbc
  have htotal : ∀ a b : ScoredPlace,
      (decide (a.travel_time ≤ b.travel_time) || decide (b.travel_time ≤ a.travel_time))
        = true := by
    intro a b
    simp only [Bool.or_eq_true, decide_eq_true_eq]
    exact le_total _ _
  have hmain := web_itinerary_days_day_place (web_sorted_recs recommendations)
    (outdoor_friendly_flag weather_condition) num_days 0
  simp only [Nat.zero_add] at hmain
  refine ⟨?_, ?_, ?_⟩
  · exact (List.sorted_mergeSort htrans htotal recommendations).imp
      (fun hab => of_decide_eq_true hab)
  · simp only [web_generate_itinerary]
    exact hmain
  · calc (web_generate_itinerary recommendations weather_condition num_days).length
        = ((web_generate_itinerary recommendations weather_condition num_days).map
            (fun e => (e.day, e.place))).length := (List.length_map _ _).symm
      _ = (((List.range num_days).map (fun i =>
            (((web_sorted_recs recommendations).drop (i * 4)).take 4).map
              (fun p => ("Day " ++ toString (i + 1), p.place)))).flatten).length := by
            simp only [web_generate_itinerary]
            rw [hmain]
      _ = min (num_days * 4) (web_sorted_recs recommendations).length :=
            flatten_slices_length (web_sorted_recs recommendations)
              (fun i => fun p => ("Day " ++ toString (i + 1), p.place)) 4 num_days
      _ = min recommendations.length (num_days * 4) := by
            simp [web_sorted_recs, Nat.min_comm]

/-- Ten ranked places with travel times 1 to 10, already in
travel-time-ascending order, used to exercise the variant-B builder. -/
def ten_ranked_places : List ScoredPlace :=
  [ScoredPlace.mk "P1" 1 3 0 0 0 [], ScoredPlace.mk "P2" 2 3 0 0 0 [],
   ScoredPlace.mk "P3" 3 3 0 0 0 [], ScoredPlace.mk "P4" 4 3 0 0 0 [],
   ScoredPlace.mk "P5" 5 3 0 0 0 [], ScoredPlace.mk "P6" 6 3 0 0 0 [],
   ScoredPlace.mk "P7" 7 3 0 0 0 [], ScoredPlace.mk "P8" 8 3 0 0 0 [],
   ScoredPlace.mk "P9" 9 3 0 0 0 [], ScoredPlace.mk "P10" 10 3 0 0 0 []]

/-- Witness for claim C4 at the concrete example of the claim: ten ranked
places with three days; the theorem applies, and the produced day and
place assignment is exactly three day groups of sizes 4, 4 and 2 in
travel-time-ascending order. -/
theorem c4_day_buckets_witness :
    1 ≤ 3 ∧
      ((web_sorted_recs ten_ranked_places).Pairwise
          (fun a b => a.travel_time ≤ b.travel_time) ∧
        (web_generate_itinerary ten_ranked_places "clear sky" 3).map
            (fun e => (e.day, e.place)) =
          ((List.range 3).map (fun i =>
            (((web_sorted_recs ten_ranked_places).drop (i * 4)).take 4).map
              (fun p => ("Day " ++ toString (i + 1), p.place)))).flatten ∧
        (web_generate_itinerary ten_ranked_places "clear sky" 3).length =
          min ten_ranked_places.length (3 * 4)) ∧
      (web_generate_itinerary ten_ranked_places "clear sky" 3).map
          (fun e => (e.day, e.place)) =
        [("Day 1", "P1"), ("Day 1", "P2"), ("Day 1", "P3"), ("Day 1", "P4"),
         ("Day 2", "P5"), ("Day 2", "P6"), ("Day 2", "P7"), ("Day 2", "P8"),
         ("Day 3", "P9"), ("Day 3", "P10")] := by
  have hsort : web_sorted_recs ten_ranked_places = ten_ranked_places :=
    List.mergeSort_of_sorted (by decide)
  refine ⟨by decide, c4_day_buckets ten_ranked_places "clear sky" 3 (by decide), ?_⟩
  simp only [web_generate_itinerary]
  rw [hsort]
  rfl

end TravelPlanner
